import Mathlib

/-!
Shallow embedding of the RS485 device integration
(custom_components/rs485_device) — switch bank, curtain cover, and the
shared publisher lifecycle — with theorems settling the specification
claims about it.
-/

namespace RS485

/-! ## Switch component constants (switch.py lines 22-24) -/

/-- switch.py line 22: `DEFAULT_STATE: Final = 256`. -/
def DEFAULT_STATE : Nat := 256

/-- switch.py line 23: `PLACEHOLDER: Final = "00000000"`, embedded as the
digit list of eight zeros. -/
def PLACEHOLDER : List Nat := List.replicate 8 0

/-- switch.py line 24: `REGISTER_ADDRESS: Final = 0x1008`. -/
def REGISTER_ADDRESS : Nat := 0x1008

/-! ## Python helpers embedded structurally -/

/-- Fuel-driven helper for `binDigits`; fuel is consumed once per division
by two, so fuel `n` is always enough for input `n`. -/
def binDigitsAux : Nat → Nat → List Nat
  | 0, n => [n % 2]
  | fuel + 1, n => if n < 2 then [n] else binDigitsAux fuel (n / 2) ++ [n % 2]

/-- Python `bin(n)[2:]` as a most-significant-first digit list
(`binDigits 0 = [0]`, matching `bin(0)[2:] = "0"`). -/
def binDigits (n : Nat) : List Nat := binDigitsAux n n

/-- Fuel-driven helper for `intLog2`. -/
def intLog2Aux : Nat → Nat → Nat
  | 0, _ => 0
  | fuel + 1, n => if n < 2 then 0 else intLog2Aux fuel (n / 2) + 1

/-- CPython `int(math.log(n, 2))` for the byte-sized inputs the switch
handles: the floor of the base-2 logarithm (exact on powers of two). -/
def intLog2 (n : Nat) : Nat := intLog2Aux n n

/-- Python slice `l[-2:]`: the last two elements (or fewer if the list is
shorter). -/
def lastTwo (l : List Nat) : List Nat := l.drop (l.length - 2)

/-! ## Switch data model -/

/-- Per-entity configuration of `RS485Switch` (switch.py `__init__`):
`_slave`, `_index`, `_identify`, `_has_relay`. -/
structure SwitchCfg where
  slave : Nat
  index : Nat
  identify : Nat
  hasRelay : Bool
deriving DecidableEq

/-- Shared per-entry state in `hass.data[DOMAIN][entry_id]`
(initialised to `None`/`None` in `__init__.py` lines 44-49):
`CONF_STATE` (the cached register value) and `CONF_SWITCHES`
(the active button index). -/
structure SwitchShared where
  confState : Option Nat
  confSwitches : Option Nat
deriving DecidableEq

/-- A message handed to `publisher.send_message`, built by
`construct_modbus_message`: a function-3 register read (with a count) or a
function-6 register write (with a value). -/
inductive BusMsg where
  | read (slave addr count identify : Nat)
  | write (slave addr value identify : Nat)
deriving DecidableEq

/-- Result of one switch callback / command handler: the shared entry
state, the entity's `_is_on` flag, and the messages sent on the bus. -/
structure CallbackResult where
  shared : SwitchShared
  isOn : Bool
  sent : List BusMsg
deriving DecidableEq

/-- switch.py lines 98-103, `_binary_list_to_int`:
`(high_byte << 8) + (low_byte & 0xFF)`.  Python raises IndexError when the
list has fewer than two elements; the default 0 below is never reached in
the frames the theorems quantify over. -/
def binary_list_to_int (l : List Nat) : Nat :=
  (l.getD 0 0 <<< 8) + l.getD 1 0 % 256

/-- switch.py lines 166-171, the relay-less realignment applied to the
declared length `_length` and the post-function-code tail `_last`:
`if self._has_relay is False and (_last[-2:][0] << 8) == 256:` then
`last = _last[1:]` and `length = _length - 1`, else unchanged.
(Python raises IndexError on an empty `_last`; the `getD` default 0
disables the quirk there, a case no theorem relies on.) -/
def realign (hasRelay : Bool) (_length : Nat) (_last : List Nat) :
    List Nat × Nat :=
  if hasRelay = false ∧ (lastTwo _last).getD 0 0 <<< 8 = 256 then
    (_last.drop 1, _length - 1)
  else
    (_last, _length)

/-- switch.py lines 262-278, `async_update`'s bit extraction:
`state_str = bin(state % DEFAULT_STATE)[2:]`, left-pad with `PLACEHOLDER`
to 8 characters, reverse, read character `index - 1`, compare with `'1'`.
(The out-of-range default 2 stands for Python's IndexError when
`index > 8`; the theorems stay inside 1..8.) -/
def extractBit (state index : Nat) : Bool :=
  let stateStr := binDigits (state % DEFAULT_STATE)
  let binaryString := PLACEHOLDER.take (PLACEHOLDER.length - stateStr.length) ++ stateStr
  binaryString.reverse.getD (index - 1) 2 == 1

/-- switch.py lines 262-278, `async_update`: when `CONF_STATE` is not
`None`, recompute `_is_on` from the cached register value; otherwise leave
it unchanged. -/
def asyncUpdateIsOn (cfg : SwitchCfg) (sh : SwitchShared) (isOn : Bool) : Bool :=
  match sh.confState with
  | none => isOn
  | some v => extractBit v cfg.index

/-- switch.py lines 148-232, `RS485Switch._subscribe_callback`, embedded
over the inbound data tuple.  Mirrors, in order: the length-8 guard, the
foreign identify/slave guard, the unpacking of `data[5:]`, the relay-less
realignment (`realign`), the manual-press detection (early return on a
trailing zero, otherwise `CONF_SWITCHES := int(log2(ls)) + 1`), the
slave-matched register/write handling, and the final `async_update`. -/
def subscribeCallback (cfg : SwitchCfg) (identifySet slavesSet : List Nat)
    (sh : SwitchShared) (isOn : Bool) (data : List Nat) : CallbackResult :=
  if data.length < 8 then ⟨sh, isOn, []⟩
  else if data.getD 1 0 ∈ identifySet.filter (fun x => x ≠ cfg.identify) ∧
      data.getD 6 0 ∈ slavesSet.filter (fun x => x ≠ cfg.slave) then
    ⟨sh, isOn, []⟩
  else
    let _length := data.getD 5 0
    let slave := data.getD 6 0
    let function_code := data.getD 7 0
    let _last := data.drop 8
    let p := realign cfg.hasRelay _length _last
    let last := p.1
    let length := p.2
    if length = 6 ∧ function_code = 3 ∧ last.getLastD 0 = 0 then ⟨sh, isOn, []⟩
    else
      let sh1 :=
        if length = 6 ∧ function_code = 3 then
          { sh with confSwitches := some (intLog2 (last.getLastD 0) + 1) }
        else sh
      let switch_index := sh1.confSwitches
      if slave = cfg.slave then
        let step : SwitchShared × List BusMsg :=
          if switch_index = some cfg.index then
            if function_code = 3 then
              if length = 5 then
                ({ sh1 with confState := some (binary_list_to_int (lastTwo last)) }, [])
              else if length = 6 then
                (sh1, [BusMsg.read cfg.slave REGISTER_ADDRESS 1 cfg.identify])
              else (sh1, [])
            else if function_code = 6 then
              ({ sh1 with confState := some (binary_list_to_int (lastTwo last)) }, [])
            else (sh1, [])
          else if (function_code = 3 ∧ length = 5) ∨ function_code = 6 then
            ({ sh1 with confState := some (binary_list_to_int (lastTwo last)) }, [])
          else (sh1, [])
        ⟨step.1, asyncUpdateIsOn cfg step.1 isOn, step.2⟩
      else ⟨sh1, isOn, []⟩

/-- switch.py lines 130-146, `_handle_switch`: set `CONF_SWITCHES` to the
button's own index, send a register read, read the (possibly refreshed)
cached register value, XOR it with `self._index`, send the write, store
the written value back into `CONF_STATE`, and set `_is_on` to the
requested value.  `sh` is the shared state at the moment the cached value
is read (Python raises TypeError when `CONF_STATE` is still `None`; the
theorems assume a stored value). -/
def handleSwitch (cfg : SwitchCfg) (sh : SwitchShared) (requested : Bool) :
    CallbackResult :=
  let sh1 := { sh with confSwitches := some cfg.index }
  let state := sh1.confState.getD 0
  let value := state ^^^ cfg.index
  { shared := { sh1 with confState := some value },
    isOn := requested,
    sent := [BusMsg.read cfg.slave REGISTER_ADDRESS 1 cfg.identify,
             BusMsg.write cfg.slave REGISTER_ADDRESS value cfg.identify] }

/-- switch.py lines 280-283, `async_turn_on`. -/
def asyncTurnOn (cfg : SwitchCfg) (sh : SwitchShared) : CallbackResult :=
  handleSwitch cfg sh true

/-- switch.py lines 285-288, `async_turn_off`. -/
def asyncTurnOff (cfg : SwitchCfg) (sh : SwitchShared) : CallbackResult :=
  handleSwitch cfg sh false

/-! ## Curtain component (cover.py) -/

/-- Per-entity configuration of `RS485CurtainCover` (cover.py `__init__`):
`_slave` and `_unique_id`. -/
structure CurtainCfg where
  slave : Nat
  uniqueId : String
deriving DecidableEq

/-- Curtain entity state (cover.py `__init__` plus the flags the handlers
mutate): `_position`, `_moving`, `_watching`, `_destination`, `_is_open`.
Positions are integers, as in Python (a confirmation byte above 100 would
drive `100 - byte` negative). -/
structure CurtainState where
  position : Int
  moving : Bool
  watching : Bool
  destination : Int
  isOpen : Bool
deriving DecidableEq

/-- cover.py lines 59-67: the constructor state
(`position = 100`, `moving = False`, `watching = True`,
`destination = 100`, `is_open = False`). -/
def initCurtainState : CurtainState :=
  { position := 100, moving := false, watching := true,
    destination := 100, isOpen := false }

/-- cover.py line 61: `self._slave.to_bytes(2, byteorder="big")`
(Python raises OverflowError at 2^16; the slaves in use are small). -/
def slaveBytes (slave : Nat) : List Nat := [slave / 256 % 256, slave % 256]

/-- cover.py lines 150-151: `high_byte, low_byte = data[7:9][::-1]` then
`_slave = (high_byte << 8) | low_byte` — the slave decoded from the two
reversed bytes. -/
def decodedSlave (data : List Nat) : Nat :=
  data.getD 8 0 <<< 8 ||| data.getD 7 0

/-- cover.py lines 155-160: `position = self._position`, then
`if data_length == 6: position = 100 - data[-1]`, then
`if data_length > 10: position = data[-1]` (two sequential ifs, as in the
source). -/
def derivePosition (current : Int) (data : List Nat) : Int :=
  let p1 := if data.getD 5 0 = 6 then 100 - (data.getLastD 0 : Int) else current
  if 10 < data.getD 5 0 then (data.getLastD 0 : Int) else p1

/-- cover.py lines 137-171, `RS485CurtainCover._subscribe_callback`:
guard on `sub_id`, the length-12 minimum, the identify byte 140, and the
decoded slave; then adopt/snap the derived position or clear the
`watching`/`moving` flags.  The second component lists the messages sent
(the callback sends none). -/
def curtainCallback (cfg : CurtainCfg) (st : CurtainState) (subId : String)
    (data : List Nat) : CurtainState × List (List Nat) :=
  if subId ≠ cfg.uniqueId then (st, [])
  else if data.length < 12 then (st, [])
  else if data.getD 1 0 ≠ 140 then (st, [])
  else if decodedSlave data = cfg.slave then
    let pos := derivePosition st.position data
    if pos ≠ st.position then
      if st.moving then ({ st with position := st.destination }, [])
      else ({ st with position := pos }, [])
    else ({ st with watching := false, moving := false }, [])
  else (st, [])

/-- cover.py lines 202-211, `async_stop_cover`: send
`00 8C 00 00 00 05 55 <slave:2> 03 03`, then (after the 1-second sleep)
clear `moving` and set `watching`. -/
def asyncStopCover (cfg : CurtainCfg) (st : CurtainState) :
    CurtainState × List (List Nat) :=
  ({ st with moving := false, watching := true },
   [[0x00, 0x8C, 0x00, 0x00, 0x00, 0x05, 0x55] ++ slaveBytes cfg.slave ++ [0x03, 0x03]])

/-- cover.py lines 213-223, `async_close_cover`: send
`00 8C 00 00 00 05 55 <slave:2> 03 01`, then set `is_open = True`
(as in the source), clear `moving`, and set the position to 0. -/
def asyncCloseCover (cfg : CurtainCfg) (st : CurtainState) :
    CurtainState × List (List Nat) :=
  ({ st with isOpen := true, moving := false, position := 0 },
   [[0x00, 0x8C, 0x00, 0x00, 0x00, 0x05, 0x55] ++ slaveBytes cfg.slave ++ [0x03, 0x01]])

/-- cover.py lines 225-235, `async_open_cover`: send
`00 8C 00 00 00 05 55 <slave:2> 03 02`, then set `is_open = False`
(as in the source), clear `moving`, and set the position to 100. -/
def asyncOpenCover (cfg : CurtainCfg) (st : CurtainState) :
    CurtainState × List (List Nat) :=
  ({ st with isOpen := false, moving := false, position := 100 },
   [[0x00, 0x8C, 0x00, 0x00, 0x00, 0x05, 0x55] ++ slaveBytes cfg.slave ++ [0x03, 0x02]])

/-- cover.py lines 237-253, `async_set_cover_position` with a requested
position `t` (Home Assistant supplies 0..100; `bytes([100 - t])` would
raise in Python beyond that, and the theorems assume `t ≤ 100`): send
`00 8C 00 00 00 06 55 <slave:2> 03 04 <100 - t>`, then set `moving`,
position and destination to `t`, and `is_open = t > 0`. -/
def asyncSetCoverPosition (cfg : CurtainCfg) (t : Nat) (st : CurtainState) :
    CurtainState × List (List Nat) :=
  ({ st with moving := true, position := (t : Int), destination := (t : Int),
             isOpen := decide (0 < t) },
   [[0x00, 0x8C, 0x00, 0x00, 0x00, 0x06, 0x55] ++ slaveBytes cfg.slave ++
      [0x03, 0x04, 100 - t]])

/-! ## Entity teardown and the watchdog task -/

/-- The pieces of an entity's runtime the teardown handlers touch: whether
its watchdog task has been cancelled and whether its subscription is
live. -/
structure EntityRuntime where
  watchdogCancelled : Bool
  subscribed : Bool
deriving DecidableEq

/-- switch.py lines 250-260, `RS485Switch.async_will_remove_from_hass`:
unsubscribes (and closes the publisher when no subscriber remains) but
contains no cancellation of `watchdog_task`. -/
def switchWillRemove (r : EntityRuntime) : EntityRuntime :=
  { r with subscribed := false }

/-- cover.py lines 182-191, `RS485CurtainCover.async_will_remove_from_hass`:
cancels `_watchdog_task` (line 184) and then unsubscribes. -/
def coverWillRemove (r : EntityRuntime) : EntityRuntime :=
  { r with watchdogCancelled := true, subscribed := false }

/-! ## Publisher lifecycle (spec-modelled)

`rs485_tcp_publisher.py` is imported by every entity module but is not
part of the sources; its operations are modelled from the spec
(sections 4.2 and 4.3) and driven exactly as the entity code drives them. -/

/-- Modelled from the spec: the BusTransport/Dispatcher pair of
`RS485TcpPublisher` — a connection flag plus the set of live subscription
ids (spec section 3, Subscription; section 4.2, BusTransport). -/
structure Publisher where
  connected : Bool
  subscribers : List String
deriving DecidableEq

/-- The publisher before any entity attaches: closed, no subscribers. -/
def initPublisher : Publisher := ⟨false, []⟩

/-- Modelled from the spec: `publisher.start()` — "connects if not already
connected; idempotent" (spec section 4.2, open). -/
def pubStart (p : Publisher) : Publisher := { p with connected := true }

/-- Modelled from the spec: `publisher.subscribe(callback, id)` —
registers the callback under its id (spec section 4.3); re-subscribing an
existing id replaces it without growing the live count. -/
def pubSubscribe (id : String) (p : Publisher) : Publisher :=
  if id ∈ p.subscribers then p else { p with subscribers := id :: p.subscribers }

/-- Modelled from the spec: `publisher.unsubscribe(id)` — removes the
subscription with that id, if present (spec section 4.3). -/
def pubUnsubscribe (id : String) (p : Publisher) : Publisher :=
  { p with subscribers := p.subscribers.erase id }

/-- Modelled from the spec: `publisher.close()` — "closes the socket only
when the live-subscriber count reaches zero; otherwise a no-op"
(spec section 4.2, close). -/
def pubClose (p : Publisher) : Publisher :=
  if p.subscribers.length = 0 then { p with connected := false } else p

/-- Entity attach, as `async_added_to_hass` performs it in switch.py
lines 234-239, cover.py lines 173-177 and binary_sensor.py lines 147-154:
`await publisher.start()` then `await publisher.subscribe(cb, id)`. -/
def entityAttach (id : String) (p : Publisher) : Publisher :=
  pubSubscribe id (pubStart p)

/-- Entity detach, as `async_will_remove_from_hass` performs it in
switch.py lines 250-260, cover.py lines 182-191 and binary_sensor.py
lines 159-167: `await publisher.unsubscribe(id)`, then
`if publisher.subscribers_length == 0: await publisher.close()`. -/
def entityDetach (id : String) (p : Publisher) : Publisher :=
  let q := pubUnsubscribe id p
  if q.subscribers.length = 0 then pubClose q else q

/-- One attach or detach step; the id is whatever the entity passed
(the binary sensor subscribes under `entity_description.key` but
unsubscribes under `_unique_id`, so mismatched ids are legal inputs). -/
inductive BusOp where
  | attach (id : String)
  | detach (id : String)

/-- Apply one lifecycle operation to the publisher. -/
def applyOp : BusOp → Publisher → Publisher
  | .attach id, p => entityAttach id p
  | .detach id, p => entityDetach id p

/-- Run a sequence of attach/detach operations from the initial (closed,
empty) publisher. -/
def runOps (ops : List BusOp) : Publisher :=
  ops.foldl (fun p op => applyOp op p) initPublisher

/-! ## Helper lemmas -/

/-- With enough fuel, `intLog2Aux` computes the exponent of a power of
two. -/
theorem intLog2Aux_pow :
    ∀ (k fuel n : Nat), n = 2 ^ k → n ≤ fuel → intLog2Aux fuel n = k := by
  intro k
  induction k with
  | zero =>
    intro fuel n hn hle
    subst hn
    obtain ⟨f, rfl⟩ : ∃ f, fuel = f + 1 := ⟨fuel - 1, by omega⟩
    simp [intLog2Aux]
  | succ k ih =>
    intro fuel n hn hle
    have hpow : (1 : Nat) ≤ 2 ^ k := Nat.one_le_two_pow
    have hsucc : (2 : Nat) ^ (k + 1) = 2 ^ k * 2 := Nat.pow_succ 2 k
    subst hn
    obtain ⟨f, rfl⟩ : ∃ f, fuel = f + 1 := ⟨fuel - 1, by omega⟩
    have hnot : ¬ (2 ^ (k + 1) < 2) := by omega
    have hdiv : 2 ^ (k + 1) / 2 = 2 ^ k := by
      rw [hsucc, Nat.mul_div_cancel _ (by omega)]
    have hle2 : 2 ^ k ≤ f := by omega
    simp only [intLog2Aux, if_neg hnot, hdiv, ih f (2 ^ k) rfl hle2]

/-- `intLog2` computes the exponent of a power of two, as
`int(math.log(ls, 2))` does on the byte-sized powers of two the switch
handles. -/
theorem intLog2_pow (k : Nat) : intLog2 (2 ^ k) = k :=
  intLog2Aux_pow k (2 ^ k) (2 ^ k) rfl le_rfl

/-! ## C1 — per-button bit extraction -/

/-- C1 (counterexample): the claim maps button 1 to bit 7 and button 8 to
bit 0 of the stored register value.  At `registerValue = 1` (bit 0 set,
bit 7 clear) the extraction turns button 1 on, and at
`registerValue = 128` (bit 7 set, bit 0 clear) it turns button 8 on: the
code maps button 1 to bit 0 and button 8 to bit 7, the reverse of the
claim. -/
theorem C1_counterexample :
    extractBit 1 1 = true ∧ Nat.testBit 1 7 = false ∧
    extractBit 128 8 = true ∧ Nat.testBit 128 0 = false := by decide

set_option maxRecDepth 4096 in
/-- C1 (amended): for every stored `registerValue` in [0,255] and every
`buttonIndex` in [1,8], the bit extraction of `async_update` (render
`registerValue mod 256` as an 8-character zero-left-padded binary string,
reverse it, read character `buttonIndex - 1`) is deterministic and reads
bit `buttonIndex - 1` of the register value: button 1 reads bit 0 and
button 8 reads bit 7, `'1'` meaning on. -/
theorem C1_theorem (v b : Nat) (hv : v < 256) (hb1 : 1 ≤ b) (hb8 : b ≤ 8) :
    extractBit v b = Nat.testBit v (b - 1) := by
  have key : ∀ v, v < 256 → ∀ i, i < 8 → extractBit v (i + 1) = Nat.testBit v i := by
    decide
  obtain ⟨i, rfl⟩ : ∃ i, b = i + 1 := ⟨b - 1, by omega⟩
  simpa using key v hv i (by omega)

/-- C1 (witness): the amended theorem applied at `registerValue = 5`,
button 2. -/
theorem C1_witness : extractBit 5 2 = Nat.testBit 5 1 :=
  C1_theorem 5 2 (by decide) (by decide) (by decide)

/-! ## C3 — relay-less realignment -/

/-- C3 (counterexample): the claim says the realignment fires exactly when
the two trailing bytes combine to exactly the value 256, and then drops
the first of those two bytes.  On the tail `[2, 1, 1]` the two trailing
bytes are `(1, 1)`, which combine to `257 ≠ 256`, yet the realignment
fires (the code only tests the second-to-last byte shifted left by 8);
moreover it drops the head of the tail (`2`), yielding `[1, 1]`, not the
first of the two trailing bytes (which would yield `[2, 1]`). -/
theorem C3_counterexample :
    realign false 6 [2, 1, 1] = ([1, 1], 5) ∧
    256 * 1 + 1 ≠ 256 ∧ ([1, 1] : List Nat) ≠ [2, 1] := by decide

/-- C3 (amended): for a relay-less bank the realignment fires exactly when
the second-to-last trailing byte equals 1 (the code's test
`_last[-2:][0] << 8 == 256`, which ignores the final byte), and it then
drops the first byte of the post-function-code tail and decrements the
declared payload length by one; with a relay the frame is left
unchanged. -/
theorem C3_theorem (hr : Bool) (L : Nat) (l : List Nat) :
    realign hr L l =
      if hr = false ∧ (lastTwo l).getD 0 0 = 1 then (l.drop 1, L - 1)
      else (l, L) := by
  have h256 : ∀ x : Nat, x <<< 8 = 256 ↔ x = 1 := by
    intro x
    rw [Nat.shiftLeft_eq]
    norm_num
  unfold realign
  simp only [h256]

/-! ## C9 — manual-press detection -/

/-- C9: for a frame passing the length and foreign-traffic guards, with
function code 3 and realigned payload length 6, a final byte equal to a
non-zero power of two `2 ^ k` sets the shared active button index to
`k + 1`, and a final byte of zero leaves all state unchanged with nothing
sent. -/
theorem C9_theorem (cfg : SwitchCfg) (idset sset : List Nat)
    (sh : SwitchShared) (isOn : Bool) (data : List Nat)
    (hlen : 8 ≤ data.length)
    (hguard : ¬(data.getD 1 0 ∈ idset.filter (fun x => x ≠ cfg.identify) ∧
                data.getD 6 0 ∈ sset.filter (fun x => x ≠ cfg.slave)))
    (hfc : data.getD 7 0 = 3)
    (hlen6 : (realign cfg.hasRelay (data.getD 5 0) (data.drop 8)).2 = 6) :
    (∀ k : Nat,
      (realign cfg.hasRelay (data.getD 5 0) (data.drop 8)).1.getLastD 0 = 2 ^ k →
      (subscribeCallback cfg idset sset sh isOn data).shared.confSwitches =
        some (k + 1))
    ∧ ((realign cfg.hasRelay (data.getD 5 0) (data.drop 8)).1.getLastD 0 = 0 →
      subscribeCallback cfg idset sset sh isOn data = ⟨sh, isOn, []⟩) := by
  have h1 : ¬ data.length < 8 := by omega
  constructor
  · intro k hk
    have hne : ¬ ((realign cfg.hasRelay (data.getD 5 0) (data.drop 8)).1.getLastD 0 = 0) := by
      rw [hk]
      exact Nat.pos_iff_ne_zero.mp (Nat.pos_pow_of_pos k (by omega))
    simp only [subscribeCallback, if_neg h1, if_neg hguard, hfc, hlen6, hk,
      intLog2_pow]
    split_ifs <;> simp_all
  · intro hz
    simp only [subscribeCallback, if_neg h1, if_neg hguard, hfc, hlen6, hz]
    simp

/-- C9 (witness): the theorem applied to a single-bank configuration
(slave 3, button 2, identify 32, with relay).  The manual-press frame
`[0,0,0,0,0,6,3,3,0,2,13,8]` has final byte `8 = 2 ^ 3` and sets the
active button index to 4 (the spec's own example), and the echo frame
`[0,0,0,0,0,6,3,3,0,2,1,0]` with a trailing zero changes nothing. -/
theorem C9_witness :
    (subscribeCallback ⟨3, 2, 32, true⟩ [32] [3] ⟨none, none⟩ false
        [0, 0, 0, 0, 0, 6, 3, 3, 0, 2, 13, 8]).shared.confSwitches = some 4 ∧
    subscribeCallback ⟨3, 2, 32, true⟩ [32] [3] ⟨none, none⟩ false
        [0, 0, 0, 0, 0, 6, 3, 3, 0, 2, 1, 0] = ⟨⟨none, none⟩, false, []⟩ := by
  constructor
  · exact (C9_theorem ⟨3, 2, 32, true⟩ [32] [3] ⟨none, none⟩ false
      [0, 0, 0, 0, 0, 6, 3, 3, 0, 2, 13, 8] (by decide) (by decide) (by decide)
      (by decide)).1 3 (by decide)
  · exact (C9_theorem ⟨3, 2, 32, true⟩ [32] [3] ⟨none, none⟩ false
      [0, 0, 0, 0, 0, 6, 3, 3, 0, 2, 1, 0] (by decide) (by decide) (by decide)
      (by decide)).2 (by decide)

/-! ## C2 — curtain command frames -/

/-- C2 (counterexample): the claim says every curtain command frame
carries curtain-control function code 1, with sub-code 0x01 for open.
The open command for slave 5 puts 3 (the module's `CONTROL_CMD`) in the
function-code position (byte 9) and sub-code 0x02 (byte 10). -/
theorem C2_counterexample :
    ((asyncOpenCover ⟨5, "c"⟩ initCurtainState).2.headD []).getD 9 0 = 3 ∧
    ((asyncOpenCover ⟨5, "c"⟩ initCurtainState).2.headD []).getD 9 0 ≠ 1 ∧
    ((asyncOpenCover ⟨5, "c"⟩ initCurtainState).2.headD []).getD 10 0 = 2 := by
  decide

/-- C2 (amended): every curtain command frame carries control function
code 3 (`CONTROL_CMD`) in byte 9, with sub-code 0x02 for open, 0x01 for
close, 0x03 for stop and 0x04 for setPosition, the setPosition sub-code
followed by one data byte equal to `100 - targetPercent`. -/
theorem C2_theorem (cfg : CurtainCfg) (st : CurtainState) (t : Nat)
    (_ht : t ≤ 100) :
    ((asyncOpenCover cfg st).2.headD []).getD 9 0 = 3 ∧
    ((asyncOpenCover cfg st).2.headD []).getD 10 0 = 2 ∧
    ((asyncCloseCover cfg st).2.headD []).getD 9 0 = 3 ∧
    ((asyncCloseCover cfg st).2.headD []).getD 10 0 = 1 ∧
    ((asyncStopCover cfg st).2.headD []).getD 9 0 = 3 ∧
    ((asyncStopCover cfg st).2.headD []).getD 10 0 = 3 ∧
    ((asyncSetCoverPosition cfg t st).2.headD []).getD 9 0 = 3 ∧
    ((asyncSetCoverPosition cfg t st).2.headD []).getD 10 0 = 4 ∧
    ((asyncSetCoverPosition cfg t st).2.headD []).getD 11 0 = 100 - t := by
  refine ⟨rfl, rfl, rfl, rfl, rfl, rfl, rfl, rfl, rfl⟩

/-- C2 (witness): the amended theorem at slave 5, target 30. -/
theorem C2_witness :
    ((asyncSetCoverPosition ⟨5, "c"⟩ 30 initCurtainState).2.headD []).getD 11 0 = 70 :=
  (C2_theorem ⟨5, "c"⟩ initCurtainState 30 (by decide)).2.2.2.2.2.2.2.2

/-! ## C8 — optimistic state after curtain commands -/

/-- C8: after each curtain command completes (the state writes after the
1-second settle sleep), open sets the position to 100, close to 0,
setPosition(target) sets position and destination to the target with
`moving` true, and stop leaves the position unchanged; in particular
setPosition(30) yields position 30, moving true, destination 30. -/
theorem C8_theorem (cfg : CurtainCfg) (st : CurtainState) (t : Nat) :
    (asyncOpenCover cfg st).1.position = 100 ∧
    (asyncCloseCover cfg st).1.position = 0 ∧
    (asyncSetCoverPosition cfg t st).1.position = (t : Int) ∧
    (asyncSetCoverPosition cfg t st).1.destination = (t : Int) ∧
    (asyncSetCoverPosition cfg t st).1.moving = true ∧
    (asyncStopCover cfg st).1.position = st.position ∧
    (asyncSetCoverPosition cfg 30 st).1.position = 30 ∧
    (asyncSetCoverPosition cfg 30 st).1.moving = true ∧
    (asyncSetCoverPosition cfg 30 st).1.destination = 30 := by
  refine ⟨rfl, rfl, rfl, rfl, rfl, rfl, rfl, rfl, rfl⟩

/-! ## C5 — curtain confirmation-frame handling -/

/-- C5 (counterexample): the claim says moving/watching are cleared only
when the derived position equals the last known position twice in a row.
The very first frame the handler ever sees (constructor state: position
100, watching true), with declared length 6 and trailing byte 0, derives
position `100 - 0 = 100`, equal to the stored position once — and the
handler already clears both flags. -/
theorem C5_counterexample :
    curtainCallback ⟨2, "c"⟩ initCurtainState "c"
        [0, 140, 0, 0, 0, 6, 85, 2, 0, 3, 0, 0] =
      ({ initCurtainState with watching := false, moving := false }, []) ∧
    initCurtainState.watching = true := by decide

/-- C5 (amended): for every inbound frame accepted by the curtain handler
(matching sub_id, length at least 12, identify byte 140, decoded slave
equal to the curtain's), the position derives as `100 - lastByte` when the
declared length is 6 and as `lastByte` when it exceeds 10; when the
derived position differs from the stored one the handler snaps to the
destination if moving and otherwise adopts the derived position; and it
clears `moving` and `watching` whenever the derived position equals the
stored position — already on the first such frame, not only on the second
identical reading in a row. -/
theorem C5_theorem (cfg : CurtainCfg) (st : CurtainState) (subId : String)
    (data : List Nat) (h1 : subId = cfg.uniqueId) (h2 : 12 ≤ data.length)
    (h3 : data.getD 1 0 = 140) (h4 : decodedSlave data = cfg.slave) :
    (data.getD 5 0 = 6 →
      derivePosition st.position data = 100 - (data.getLastD 0 : Int)) ∧
    (10 < data.getD 5 0 →
      derivePosition st.position data = (data.getLastD 0 : Int)) ∧
    (derivePosition st.position data ≠ st.position →
      curtainCallback cfg st subId data =
        ((if st.moving then { st with position := st.destination }
          else { st with position := derivePosition st.position data }), [])) ∧
    (derivePosition st.position data = st.position →
      curtainCallback cfg st subId data =
        ({ st with watching := false, moving := false }, [])) := by
  have hlen : ¬ data.length < 12 := by omega
  have hsub : ¬ subId ≠ cfg.uniqueId := by simp [h1]
  have hid : ¬ data.getD 1 0 ≠ 140 := fun hc => hc h3
  refine ⟨?_, ?_, ?_, ?_⟩
  · intro h6
    have h10 : ¬ 10 < data.getD 5 0 := by omega
    simp only [derivePosition]
    rw [if_neg h10, if_pos h6]
  · intro h10
    simp only [derivePosition]
    rw [if_pos h10]
  · intro hne
    simp only [curtainCallback]
    rw [if_neg hsub, if_neg hlen, if_neg hid, if_pos h4, if_pos hne]
    cases hm : st.moving <;> simp [hm]
  · intro heq
    have hne : ¬ derivePosition st.position data ≠ st.position := fun hc => hc heq
    simp only [curtainCallback]
    rw [if_neg hsub, if_neg hlen, if_neg hid, if_pos h4, if_neg hne]

/-- C5 (witness): the amended theorem at slave 2: a length-6 frame with
trailing byte 30 derives position 70, differing from the stored 100, and
with `moving` false the handler adopts 70. -/
theorem C5_witness :
    curtainCallback ⟨2, "c"⟩ initCurtainState "c"
        [0, 140, 0, 0, 0, 6, 85, 2, 0, 3, 0, 30] =
      ({ initCurtainState with position := 70 }, []) := by
  rw [(C5_theorem ⟨2, "c"⟩ initCurtainState "c"
      [0, 140, 0, 0, 0, 6, 85, 2, 0, 3, 0, 30] rfl (by decide) (by decide)
      (by decide)).2.2.1 (by decide)]
  decide

/-! ## C4 — turnOn/turnOff write semantics -/

/-- C4 (counterexample): the claim says the written register value equals
the stored value with exactly the button's single bit flipped.  For
button 3 with stored value 0 the code writes `0 XOR 3 = 3`, which differs
from 0 in two bit positions (bits 0 and 1), not one. -/
theorem C4_counterexample :
    (asyncTurnOn ⟨1, 3, 13, true⟩ ⟨some 0, none⟩).shared.confState = some 3 ∧
    Nat.testBit 3 0 = true ∧ Nat.testBit 3 1 = true ∧
    Nat.testBit 0 0 = false ∧ Nat.testBit 0 1 = false := by decide

/-- C4 (amended): for every turnOn/turnOff on a switch whose shared state
holds register value `v`, the value written back is `v XOR buttonIndex`
(flipping exactly the bits set in the binary representation of the
button's index — a single bit only when the index is a power of two), the
stored state is updated to that written value, and the local on/off flag
is set immediately to the requested value. -/
theorem C4_theorem (cfg : SwitchCfg) (sh : SwitchShared) (v : Nat)
    (h : sh.confState = some v) :
    (asyncTurnOn cfg sh).shared.confState = some (v ^^^ cfg.index) ∧
    (asyncTurnOff cfg sh).shared.confState = some (v ^^^ cfg.index) ∧
    (asyncTurnOn cfg sh).isOn = true ∧
    (asyncTurnOff cfg sh).isOn = false ∧
    (asyncTurnOn cfg sh).sent =
      [BusMsg.read cfg.slave REGISTER_ADDRESS 1 cfg.identify,
       BusMsg.write cfg.slave REGISTER_ADDRESS (v ^^^ cfg.index) cfg.identify] ∧
    (asyncTurnOff cfg sh).sent =
      [BusMsg.read cfg.slave REGISTER_ADDRESS 1 cfg.identify,
       BusMsg.write cfg.slave REGISTER_ADDRESS (v ^^^ cfg.index) cfg.identify] ∧
    (v ^^^ cfg.index) ^^^ v = cfg.index := by
  have hx : (v ^^^ cfg.index) ^^^ v = cfg.index := by
    rw [Nat.xor_comm v cfg.index, Nat.xor_assoc, Nat.xor_self, Nat.xor_zero]
  refine ⟨?_, ?_, rfl, rfl, ?_, ?_, hx⟩ <;>
    simp [asyncTurnOn, asyncTurnOff, handleSwitch, h]

/-- C4 (witness): the amended theorem at button 1 on slave 2 with stored
register value 5: the written value is `5 XOR 1 = 4`. -/
theorem C4_witness :
    (asyncTurnOn ⟨2, 1, 21, true⟩ ⟨some 5, none⟩).shared.confState = some 4 := by
  have h := (C4_theorem ⟨2, 1, 21, true⟩ ⟨some 5, none⟩ 5 rfl).1
  simpa using h

/-! ## C7 — watchdog cancellation at teardown -/

/-- C7: the curtain teardown cancels its watchdog task (cover.py
line 184), but the switch teardown (switch.py lines 250-260) only
unsubscribes: a switch whose watchdog was still running at teardown ends
with the task uncancelled, so the watchdog can outlive its owner's
subscription and keep sending register reads (switch.py lines 113-125)
whenever the publisher is kept running by other devices. -/
theorem C7_theorem :
    (switchWillRemove ⟨false, true⟩).watchdogCancelled = false ∧
    (switchWillRemove ⟨false, true⟩).subscribed = false ∧
    (coverWillRemove ⟨false, true⟩).watchdogCancelled = true := by decide

/-! ## C10 — malformed and foreign frames are inert -/

/-- C10: a switch callback invocation whose data tuple has fewer than 8
elements, and a curtain callback invocation whose data tuple has fewer
than 12 elements, whose identify byte is not 140, or whose decoded slave
does not match, all leave every component state unchanged and send
nothing on the bus. -/
theorem C10_theorem (cfg : SwitchCfg) (idset sset : List Nat)
    (sh : SwitchShared) (isOn : Bool) (data : List Nat) (ccfg : CurtainCfg)
    (cst : CurtainState) (subId : String) (cdata : List Nat) :
    (data.length < 8 →
      subscribeCallback cfg idset sset sh isOn data = ⟨sh, isOn, []⟩) ∧
    (cdata.length < 12 → curtainCallback ccfg cst subId cdata = (cst, [])) ∧
    (cdata.getD 1 0 ≠ 140 → curtainCallback ccfg cst subId cdata = (cst, [])) ∧
    (decodedSlave cdata ≠ ccfg.slave →
      curtainCallback ccfg cst subId cdata = (cst, [])) := by
  refine ⟨?_, ?_, ?_, ?_⟩
  · intro h
    simp [subscribeCallback, h]
  · intro h
    simp only [curtainCallback]
    rw [if_pos h]
    exact ite_self _
  · intro h
    simp only [curtainCallback]
    rw [if_pos h]
    rw [ite_self, ite_self]
  · intro h
    simp only [curtainCallback]
    rw [if_neg h]
    rw [ite_self, ite_self, ite_self]

/-- C10 (witness): the theorem applied to a short switch tuple, a short
curtain tuple, a curtain tuple with identify byte 139, and a curtain
tuple whose decoded slave is 9 instead of 2. -/
theorem C10_witness :
    subscribeCallback ⟨1, 1, 11, true⟩ [11] [1] ⟨none, none⟩ false [0, 0, 0] =
      ⟨⟨none, none⟩, false, []⟩ ∧
    curtainCallback ⟨2, "c"⟩ initCurtainState "c" [0, 140, 0] =
      (initCurtainState, []) ∧
    curtainCallback ⟨2, "c"⟩ initCurtainState "c"
      [0, 139, 0, 0, 0, 6, 85, 2, 0, 3, 0, 0] = (initCurtainState, []) ∧
    curtainCallback ⟨2, "c"⟩ initCurtainState "c"
      [0, 140, 0, 0, 0, 6, 85, 9, 0, 3, 0, 0] = (initCurtainState, []) := by
  refine ⟨?_, ?_, ?_, ?_⟩
  · exact (C10_theorem ⟨1, 1, 11, true⟩ [11] [1] ⟨none, none⟩ false [0, 0, 0]
      ⟨2, "c"⟩ initCurtainState "c" [0, 0, 0]).1 (by decide)
  · exact (C10_theorem ⟨1, 1, 11, true⟩ [11] [1] ⟨none, none⟩ false [0, 0, 0]
      ⟨2, "c"⟩ initCurtainState "c" [0, 140, 0]).2.1 (by decide)
  · exact (C10_theorem ⟨1, 1, 11, true⟩ [11] [1] ⟨none, none⟩ false [0, 0, 0]
      ⟨2, "c"⟩ initCurtainState "c"
      [0, 139, 0, 0, 0, 6, 85, 2, 0, 3, 0, 0]).2.2.1 (by decide)
  · exact (C10_theorem ⟨1, 1, 11, true⟩ [11] [1] ⟨none, none⟩ false [0, 0, 0]
      ⟨2, "c"⟩ initCurtainState "c"
      [0, 140, 0, 0, 0, 6, 85, 9, 0, 3, 0, 0]).2.2.2 (by decide)

/-! ## C6 — live-subscription count vs transport lifecycle -/

/-- One attach or detach step preserves the live-count invariant
`subscribers empty iff closed`. -/
theorem applyOp_inv (op : BusOp) (p : Publisher)
    (h : p.subscribers.length = 0 ↔ p.connected = false) :
    ((applyOp op p).subscribers.length = 0 ↔ (applyOp op p).connected = false) := by
  cases op with
  | attach id =>
    simp only [applyOp, entityAttach, pubSubscribe, pubStart]
    by_cases hm : id ∈ p.subscribers
    · have hne : p.subscribers.length ≠ 0 := by
        intro h0
        rw [List.length_eq_zero] at h0
        rw [h0] at hm
        simp at hm
      simp [hm, hne]
    · simp [hm]
  | detach id =>
    simp only [applyOp, entityDetach, pubUnsubscribe, pubClose]
    by_cases hz : (p.subscribers.erase id).length = 0
    · simp [hz]
    · have hple : (p.subscribers.erase id).length ≤ p.subscribers.length :=
        (List.erase_sublist id p.subscribers).length_le
      have hp0 : p.subscribers.length ≠ 0 := by omega
      have hcon : p.connected = true := by
        cases hc : p.connected
        · exact absurd (h.mpr hc) hp0
        · rfl
      simp [hz, hcon]

/-- The live-count invariant holds after any operation sequence from any
state satisfying it. -/
theorem foldl_inv (ops : List BusOp) :
    ∀ p : Publisher, (p.subscribers.length = 0 ↔ p.connected = false) →
    ((ops.foldl (fun p op => applyOp op p) p).subscribers.length = 0 ↔
      (ops.foldl (fun p op => applyOp op p) p).connected = false) := by
  induction ops with
  | nil => intro p h; exact h
  | cons op ops ih =>
    intro p h
    exact ih (applyOp op p) (applyOp_inv op p h)

/-- C6: for every sequence of entity attach (start + subscribe) and detach
(unsubscribe + conditional close) operations from the initial closed
publisher, the live-subscription count is zero exactly when the transport
is closed: the detach that empties the subscriber set closes the
transport, and the transport stays open while any subscription is
live. -/
theorem C6_theorem (ops : List BusOp) :
    ((runOps ops).subscribers.length = 0) ↔ ((runOps ops).connected = false) :=
  foldl_inv ops initPublisher (by simp [initPublisher])

end RS485
